import Mathlib

/-!
# Verification of the `bevy_framepace` pacing core

Shallow embedding of `src/lib.rs`. Rust `f64` values and `Duration`s are
modelled as exact rationals (`ℚ`); a `Duration` is a nonnegative rational, and
theorems that need nonnegativity carry it as a hypothesis. Rust `panic!` paths
are modelled by `Option` results (`none` = panic). The mutex `try_lock` calls
are modelled as succeeding (the sequential, uncontended semantics); the
contended early-return paths leave state untouched and are not load-bearing for
any of the properties below.
-/

namespace Framepace

/-- Rust's `f64::clamp(lo, hi)`: `if self < lo { lo } else if self > hi { hi }
else { self }` (asserting `lo ≤ hi`, which holds at every call site since the
bounds come from nonnegative durations). -/
def rclamp (x lo hi : ℚ) : ℚ :=
  if x < lo then lo else if hi < x then hi else x

/-- `Duration::saturating_sub` on durations-as-rationals. -/
def satSub (x y : ℚ) : ℚ := max 0 (x - y)

/-- `FramePaceStats` (src/lib.rs lines 257-270), with the `Arc<Mutex<...>>`
cells flattened to plain fields, `VecDeque` as a list (front = oldest,
`push_back` = append), and `f64`/`Duration` as `ℚ`.  Field defaults mirror
Rust's `Default` derive. -/
structure FramePaceStats where
  last_frame_present_time : ℚ := 0
  last_app_time : ℚ := 0
  frametime_record : List ℚ := []
  target_delta_record : List ℚ := []
  target_delta_sum : ℚ := 0
  last_sleep_adjustment : ℚ := 0
  max_frame_records : ℕ := 0
  pid_kp : ℚ := 0
  pid_ki : ℚ := 0
  pid_kd : ℚ := 0
deriving DecidableEq, Repr

/-- `FramePaceStats::new` (lines 273-283).  On non-wasm targets it panics when
`max_frame_records == 0`; the panic is modelled by `none`. -/
def FramePaceStats.new (max_frame_records : ℕ) (pid_kp pid_ki pid_kd : ℚ) :
    Option FramePaceStats :=
  if max_frame_records = 0 then none
  else some { max_frame_records := max_frame_records, pid_kp := pid_kp,
              pid_ki := pid_ki, pid_kd := pid_kd }

/-- The `while frametime_record.len() > max { pop_front }` loop
(lines 325-327): pops from the front while the length exceeds `m`. -/
def trimFrames (m : ℕ) : List ℚ → List ℚ
  | [] => []
  | x :: rest => if m < (x :: rest).length then trimFrames m rest else x :: rest

/-- The `while target_delta_record.len() > max { sum -= front; pop_front }`
loop (lines 328-331): pops from the front while the length exceeds `m`,
subtracting each evicted value from the running sum. -/
def trimDeltas (m : ℕ) : List ℚ → ℚ → List ℚ × ℚ
  | [], s => ([], s)
  | x :: rest, s =>
      if m < (x :: rest).length then trimDeltas m rest (s - x) else (x :: rest, s)

/-- `FramePaceStats::add_frame_stats` (lines 285-332).  The
`adjusted_sleep_time < 0` panic (line 311) is modelled by `none`. -/
def FramePaceStats.add_frame_stats (stats : FramePaceStats)
    (target_frametime time_presenting_frame time_in_app sleep_adjustment
     total_frametime : ℚ) : Option FramePaceStats :=
  let ideal_sleep_time := satSub target_frametime time_in_app
  let lost_frame_time :=
    if target_frametime ≤ time_presenting_frame then 0 else time_presenting_frame
  let adjusted_sleep_time := total_frametime - time_in_app - lost_frame_time
  if adjusted_sleep_time < 0 then none
  else
    let delta_from_target := adjusted_sleep_time - ideal_sleep_time
    let frametime_record :=
      trimFrames stats.max_frame_records (stats.frametime_record ++ [total_frametime])
    let trimmed :=
      trimDeltas stats.max_frame_records
        (stats.target_delta_record ++ [delta_from_target])
        (stats.target_delta_sum + delta_from_target)
    some { stats with
      last_frame_present_time := time_presenting_frame,
      last_app_time := time_in_app,
      frametime_record := frametime_record,
      target_delta_record := trimmed.1,
      target_delta_sum := trimmed.2,
      last_sleep_adjustment := sleep_adjustment }

/-- `FramePaceStats::get_target_delta_sum` (lines 334-337), lock succeeding. -/
def FramePaceStats.get_target_delta_sum (s : FramePaceStats) : ℚ :=
  s.target_delta_sum

/-- `FramePaceStats::get_last_target_delta` (lines 395-399): `back()` or 0. -/
def FramePaceStats.get_last_target_delta (s : FramePaceStats) : ℚ :=
  (s.target_delta_record.getLast?).getD 0

/-- `FramePaceStats::get_last_target_delta_diff` (lines 339-347): match on the
record length; `get(len-2)` and `back()` are total here because each branch
guarantees the indices exist. -/
def FramePaceStats.get_last_target_delta_diff (s : FramePaceStats) : ℚ :=
  if s.target_delta_record.length = 0 then 0
  else if s.target_delta_record.length = 1 then
    0 - (s.target_delta_record.getLast?).getD 0
  else
    s.target_delta_record.getD (s.target_delta_record.length - 2) 0
      - (s.target_delta_record.getLast?).getD 0

/-- `FramePaceStats::get_requested_sleep_duration` (lines 349-373), returning
`(sleep_duration, adjustment)`. -/
def FramePaceStats.get_requested_sleep_duration (s : FramePaceStats)
    (target_frametime time_in_app : ℚ) : ℚ × ℚ :=
  let ideal_sleep_time := satSub target_frametime time_in_app
  let a0 := s.last_sleep_adjustment
  let a1 := a0 + s.pid_kp * s.get_last_target_delta
  let a2 := a1 + s.pid_ki * s.get_target_delta_sum
  let a3 := a2 + s.pid_kd * s.get_last_target_delta_diff
  let adjustment := rclamp a3 (0 - target_frametime) target_frametime
  let sleep_duration := rclamp (ideal_sleep_time - adjustment) 0 target_frametime
  (sleep_duration, adjustment)

/-- `FramePaceStats::get_avg_frame_time` (lines 402-409): sum of the recorded
frame times divided by `max_frame_records` (the capacity), not by the number
of samples; returns the default (0) when the capacity is 0. -/
def FramePaceStats.get_avg_frame_time (s : FramePaceStats) : ℚ :=
  let total := s.frametime_record.sum
  if s.max_frame_records = 0 then 0 else total / (s.max_frame_records : ℚ)

/-- Rust's `Iterator::min` over the monitors' refresh rates (millihertz). -/
def iterMin : List ℕ → Option ℕ
  | [] => none
  | x :: rest =>
      match iterMin rest with
      | none => some x
      | some y => some (min x y)

/-- `detect_frametime` (lines 238-253): the input list holds
`refresh_rate_millihertz()` for each window's current monitor.  The code takes
the MINIMUM refresh rate (`.min()`), converts it to hertz, and returns its
reciprocal as the frame period; an empty list gives `none`. -/
def detect_frametime (rates_millihertz : List ℕ) : Option ℚ :=
  match iterMin rates_millihertz with
  | none => none
  | some m => some (1 / ((m : ℚ) / 1000))

/-- The `Limiter` enum (lines 153-163). -/
inductive Limiter where
  | auto
  | manual (frametime : ℚ)
  | off
deriving DecidableEq

/-- `Limiter::is_enabled` (lines 167-169). -/
def Limiter.is_enabled : Limiter → Bool
  | .off => false
  | _ => true

/-- `get_display_refresh_rate` (lines 206-235), as the transition on the
mirrored `FrametimeLimit` value: in `Auto` mode a failed detection (or `Off`
mode) leaves the previous limit untouched (the early `return` paths). -/
def get_display_refresh_rate (limiter : Limiter) (rates_millihertz : List ℕ)
    (limit : ℚ) : ℚ :=
  match limiter with
  | .auto =>
      match detect_frametime rates_millihertz with
      | some frametime => frametime
      | none => limit
  | .manual frametime => frametime
  | .off => limit

/-- Minimum of a list of rationals, `none` on the empty list. -/
def iterMinQ : List ℚ → Option ℚ
  | [] => none
  | x :: rest =>
      match iterMinQ rest with
      | none => some x
      | some y => some (min x y)

/-- Modelled from the spec: the resolver as the spec describes it, taking the
minimum refresh PERIOD (the fastest monitor) across displays.  Kept only to be
compared with `detect_frametime`, which is translated from the source. -/
def detect_frametime_spec (rates_millihertz : List ℕ) : Option ℚ :=
  iterMinQ (rates_millihertz.map (fun m => 1 / ((m : ℚ) / 1000)))

/-- Output of one pacing iteration: the updated stats, the computed sleep
duration, and the list of caller-visible warning invocations
`(actual_frametime, target_frametime)` the iteration emitted. -/
structure LimiterOutput where
  stats : FramePaceStats
  sleep_duration : ℚ
  warnings : List (ℚ × ℚ)
deriving DecidableEq

/-- `framerate_limiter` (lines 421-441).  Wall-clock nondeterminism enters as
parameters: `frame_present_duration` is `FramePresentDuration`,
`elapsed_before_sleep` is `timer.sleep_end.elapsed()` at the measurement
point, `elapsed_after_sleep` the re-measured elapsed time after the sleep
(`final_frame_time`).  The body contains no logging or warning call, so the
`warnings` output is the empty list.  `none` models the panic inside
`add_frame_stats`. -/
def framerate_limiter (limit frame_present_duration elapsed_before_sleep
    elapsed_after_sleep : ℚ) (stats : FramePaceStats) : Option LimiterOutput :=
  let time_spent_by_app := satSub elapsed_before_sleep frame_present_duration
  let r := stats.get_requested_sleep_duration limit time_spent_by_app
  let final_frame_time := elapsed_after_sleep
  match stats.add_frame_stats limit frame_present_duration time_spent_by_app
      r.2 final_frame_time with
  | none => none
  | some s => some ⟨s, r.1, []⟩

/-- The stats resource as built by the plugin: `FramePaceStats::new(20, 1.0,
0.1, 0.0)` (lines 48-51, 63-69), with the `new` guard already discharged. -/
def statsW : FramePaceStats :=
  { max_frame_records := 20, pid_kp := 1, pid_ki := 1 / 10, pid_kd := 0 }

/-! ## Helper lemmas -/

theorem rclamp_le_right (x lo hi : ℚ) (h : lo ≤ hi) : rclamp x lo hi ≤ hi := by
  unfold rclamp
  split_ifs with h1 h2
  · exact h
  · exact le_refl hi
  · exact le_of_not_lt h2

theorem rclamp_le_left (x lo hi : ℚ) (h : lo ≤ hi) : lo ≤ rclamp x lo hi := by
  unfold rclamp
  split_ifs with h1 h2
  · exact le_refl lo
  · exact h
  · exact le_of_not_lt h1

theorem rclamp_zero_zero (x : ℚ) : rclamp x 0 0 = 0 := by
  unfold rclamp
  split_ifs with h1 h2
  · rfl
  · rfl
  · linarith

theorem trimDeltas_sub_sum (m : ℕ) :
    ∀ (xs : List ℚ) (s : ℚ),
      (trimDeltas m xs s).2 - (trimDeltas m xs s).1.sum = s - xs.sum := by
  intro xs
  induction xs with
  | nil => intro s; simp [trimDeltas]
  | cons x rest ih =>
      intro s
      unfold trimDeltas
      split_ifs with h
      · rw [ih (s - x)]
        simp only [List.sum_cons]
        ring
      · simp

theorem trimDeltas_getLast (m : ℕ) (hm : m ≠ 0) :
    ∀ (xs : List ℚ) (s : ℚ), xs ≠ [] →
      (trimDeltas m xs s).1.getLast? = xs.getLast? := by
  intro xs
  induction xs with
  | nil => intro s h; exact absurd rfl h
  | cons x rest ih =>
      intro s _
      unfold trimDeltas
      split_ifs with h
      · have hr : rest ≠ [] := by
          intro he
          subst he
          simp only [List.length_cons, List.length_nil] at h
          omega
        rw [ih (s - x) hr]
        obtain ⟨y, t, rfl⟩ := List.exists_cons_of_ne_nil hr
        exact (List.getLast?_cons_cons ..).symm
      · rfl

theorem add_frame_stats_some {s s' : FramePaceStats} {tgt pres app adj tot : ℚ}
    (h : s.add_frame_stats tgt pres app adj tot = some s') :
    ¬ tot - app - (if tgt ≤ pres then 0 else pres) < 0 ∧
    s' = { s with
      last_frame_present_time := pres,
      last_app_time := app,
      frametime_record :=
        trimFrames s.max_frame_records (s.frametime_record ++ [tot]),
      target_delta_record := (trimDeltas s.max_frame_records
        (s.target_delta_record
          ++ [tot - app - (if tgt ≤ pres then 0 else pres) - satSub tgt app])
        (s.target_delta_sum
          + (tot - app - (if tgt ≤ pres then 0 else pres) - satSub tgt app))).1,
      target_delta_sum := (trimDeltas s.max_frame_records
        (s.target_delta_record
          ++ [tot - app - (if tgt ≤ pres then 0 else pres) - satSub tgt app])
        (s.target_delta_sum
          + (tot - app - (if tgt ≤ pres then 0 else pres) - satSub tgt app))).2,
      last_sleep_adjustment := adj } := by
  simp only [FramePaceStats.add_frame_stats] at h
  set L : ℚ := if tgt ≤ pres then (0 : ℚ) else pres with hL
  split_ifs at h with hc
  exact ⟨hc, (Option.some.inj h).symm⟩

theorem iterMin_eq_none {xs : List ℕ} : iterMin xs = none ↔ xs = [] := by
  cases xs with
  | nil => simp [iterMin]
  | cons x rest =>
      unfold iterMin
      cases iterMin rest <;> simp

theorem iterMin_mem : ∀ {xs : List ℕ} {m : ℕ}, iterMin xs = some m → m ∈ xs := by
  intro xs
  induction xs with
  | nil => intro m h; simp [iterMin] at h
  | cons x rest ih =>
      intro m h
      unfold iterMin at h
      cases hr : iterMin rest with
      | none =>
          rw [hr] at h
          injection h with h
          rw [← h]
          exact List.mem_cons_self x rest
      | some y =>
          rw [hr] at h
          injection h with h
          rcases min_cases x y with ⟨he, -⟩ | ⟨he, -⟩
          · rw [← h, he]
            exact List.mem_cons_self x rest
          · rw [← h, he]
            exact List.mem_cons_of_mem x (ih hr)

theorem iterMin_le : ∀ {xs : List ℕ} {m : ℕ},
    iterMin xs = some m → ∀ x ∈ xs, m ≤ x := by
  intro xs
  induction xs with
  | nil => intro m h; simp [iterMin] at h
  | cons x rest ih =>
      intro m h z hz
      unfold iterMin at h
      cases hr : iterMin rest with
      | none =>
          rw [hr] at h
          injection h with h
          have hrest : rest = [] := iterMin_eq_none.mp hr
          subst hrest
          rcases List.mem_singleton.mp hz with rfl
          exact le_of_eq h.symm
      | some y =>
          rw [hr] at h
          injection h with h
          rcases List.mem_cons.mp hz with hzx | hz'
          · rw [hzx, ← h]
            exact min_le_left _ _
          · calc m = min x y := h.symm
              _ ≤ y := min_le_right x y
              _ ≤ z := ih hr z hz'

/-! ## Concrete states used by witnesses and counterexamples -/

/-- The state `statsW` after `add_frame_stats 1 0 0 0 2`. -/
def statsAfterOne : FramePaceStats :=
  { last_frame_present_time := 0, last_app_time := 0, frametime_record := [2],
    target_delta_record := [1], target_delta_sum := 1, last_sleep_adjustment := 0,
    max_frame_records := 20, pid_kp := 1, pid_ki := 1 / 10, pid_kd := 0 }

/-- The state `statsW` after `add_frame_stats 1 (1/2) 0 0 2`. -/
def statsAfterHalf : FramePaceStats :=
  { last_frame_present_time := 1 / 2, last_app_time := 0, frametime_record := [2],
    target_delta_record := [1 / 2], target_delta_sum := 1 / 2,
    last_sleep_adjustment := 0,
    max_frame_records := 20, pid_kp := 1, pid_ki := 1 / 10, pid_kd := 0 }

/-! ## Claim theorems -/

/-- **C2**: the adjustment returned by `get_requested_sleep_duration` with
target period `T` equals
`previous_adjustment + Kp·last_deviation + Ki·deviation_sum +
Kd·last_deviation_delta` clamped into `[-T, T]`, and in particular it always
lies within `[-T, T]` (the hypothesis `0 ≤ T` holds at every call site because
the target period is a Rust `Duration`). -/
theorem adjustment_is_pid_and_clamped (s : FramePaceStats) (T W : ℚ)
    (hT : 0 ≤ T) :
    (s.get_requested_sleep_duration T W).2 =
      rclamp (s.last_sleep_adjustment
          + s.pid_kp * s.get_last_target_delta
          + s.pid_ki * s.get_target_delta_sum
          + s.pid_kd * s.get_last_target_delta_diff) (-T) T ∧
    -T ≤ (s.get_requested_sleep_duration T W).2 ∧
    (s.get_requested_sleep_duration T W).2 ≤ T := by
  have hb : -T ≤ T := neg_le_self hT
  have he : (s.get_requested_sleep_duration T W).2 =
      rclamp (s.last_sleep_adjustment
          + s.pid_kp * s.get_last_target_delta
          + s.pid_ki * s.get_target_delta_sum
          + s.pid_kd * s.get_last_target_delta_diff) (-T) T := by
    simp only [FramePaceStats.get_requested_sleep_duration, zero_sub]
  refine ⟨he, ?_, ?_⟩
  · rw [he]
    exact rclamp_le_left _ _ _ hb
  · rw [he]
    exact rclamp_le_right _ _ _ hb

/-- Witness for C2 at the plugin's stats state, `T = 1`, `W = 0`. -/
theorem adjustment_is_pid_and_clamped_witness :
    -1 ≤ (statsW.get_requested_sleep_duration 1 0).2 ∧
    (statsW.get_requested_sleep_duration 1 0).2 ≤ 1 := by
  have h := adjustment_is_pid_and_clamped statsW 1 0 (by norm_num)
  exact ⟨by simpa using h.2.1, by simpa using h.2.2⟩

/-- **C3**: the sleep duration returned by `get_requested_sleep_duration`
equals `clamp(ideal_sleep - adjustment, 0, T)` with
`ideal_sleep = max 0 (T - W)`, hence it is never negative and never exceeds
the target period. -/
theorem sleep_duration_is_clamped (s : FramePaceStats) (T W : ℚ) (hT : 0 ≤ T) :
    (s.get_requested_sleep_duration T W).1 =
      rclamp (max 0 (T - W) - (s.get_requested_sleep_duration T W).2) 0 T ∧
    0 ≤ (s.get_requested_sleep_duration T W).1 ∧
    (s.get_requested_sleep_duration T W).1 ≤ T := by
  have he : (s.get_requested_sleep_duration T W).1 =
      rclamp (max 0 (T - W) - (s.get_requested_sleep_duration T W).2) 0 T := rfl
  refine ⟨he, ?_, ?_⟩
  · rw [he]
    exact rclamp_le_left _ _ _ hT
  · rw [he]
    exact rclamp_le_right _ _ _ hT

/-- Witness for C3 at the plugin's stats state, `T = 1`, `W = 0`. -/
theorem sleep_duration_is_clamped_witness :
    0 ≤ (statsW.get_requested_sleep_duration 1 0).1 ∧
    (statsW.get_requested_sleep_duration 1 0).1 ≤ 1 :=
  ⟨(sleep_duration_is_clamped statsW 1 0 (by norm_num)).2.1,
   (sleep_duration_is_clamped statsW 1 0 (by norm_num)).2.2⟩

/-- **C4**: `add_frame_stats` preserves the invariant
`target_delta_sum = sum target_delta_record`, including across ring-buffer
eviction (the trim loop subtracts each evicted value). -/
theorem deviation_sum_matches_history (s s' : FramePaceStats)
    (tgt pres app adj tot : ℚ)
    (hinv : s.target_delta_sum = s.target_delta_record.sum)
    (h : s.add_frame_stats tgt pres app adj tot = some s') :
    s'.target_delta_sum = s'.target_delta_record.sum := by
  obtain ⟨-, rfl⟩ := add_frame_stats_some h
  have hts := trimDeltas_sub_sum s.max_frame_records
    (s.target_delta_record
      ++ [tot - app - (if tgt ≤ pres then 0 else pres) - satSub tgt app])
    (s.target_delta_sum
      + (tot - app - (if tgt ≤ pres then 0 else pres) - satSub tgt app))
  rw [List.sum_append, List.sum_cons, List.sum_nil] at hts
  dsimp only
  linarith

/-- Witness for C4: applies the invariant theorem to the plugin's freshly
constructed state and a concrete recorded frame. -/
theorem deviation_sum_matches_history_witness :
    statsAfterOne.target_delta_sum = statsAfterOne.target_delta_record.sum :=
  deviation_sum_matches_history statsW statsAfterOne 1 0 0 0 2
    (by norm_num [statsW])
    (by norm_num [FramePaceStats.add_frame_stats, statsW, statsAfterOne,
      satSub, trimFrames, trimDeltas])

/-- Counterexample to **C5** as stated: recording a frame with
`target = 1`, `time_presenting_frame = 1/2`, `time_in_app = 0`,
`total_frametime = 2` appends the deviation `1/2`, not
`total - target = 1`: the code subtracts `lost_frame_time` and measures the
deviation of the sleep time, not of the whole frame time. -/
theorem recorded_deviation_not_total_minus_target :
    (statsW.add_frame_stats 1 (1 / 2) 0 0 2).map
        FramePaceStats.get_last_target_delta = some (1 / 2) ∧
    ((2 : ℚ) - 1 ≠ 1 / 2) := by
  constructor
  · norm_num [FramePaceStats.add_frame_stats, statsW, satSub, trimFrames,
      trimDeltas, FramePaceStats.get_last_target_delta]
  · norm_num

/-- **C5 (amended)**: the deviation appended by `add_frame_stats` equals
`(total_frametime - time_in_app - lost_frame_time) - max 0 (target -
time_in_app)`, where `lost_frame_time` is `time_presenting_frame` when it is
below the target and `0` otherwise; it equals `total - target` only in the
special case `lost_frame_time = 0` and `time_in_app ≤ target`. -/
theorem recorded_deviation_formula (s s' : FramePaceStats)
    (tgt pres app adj tot : ℚ) (hm : s.max_frame_records ≠ 0)
    (h : s.add_frame_stats tgt pres app adj tot = some s') :
    s'.get_last_target_delta =
      tot - app - (if tgt ≤ pres then 0 else pres) - max 0 (tgt - app) := by
  obtain ⟨-, rfl⟩ := add_frame_stats_some h
  unfold FramePaceStats.get_last_target_delta
  dsimp only
  rw [trimDeltas_getLast s.max_frame_records hm _ _ (by simp)]
  rw [List.getLast?_concat]
  rfl

/-- Witness for the amended C5 at the concrete frame of the counterexample. -/
theorem recorded_deviation_formula_witness :
    statsAfterHalf.get_last_target_delta =
      2 - 0 - (if (1 : ℚ) ≤ 1 / 2 then 0 else 1 / 2) - max 0 (1 - 0) :=
  recorded_deviation_formula statsW statsAfterHalf 1 (1 / 2) 0 0 2
    (by norm_num [statsW])
    (by norm_num [FramePaceStats.add_frame_stats, statsW, statsAfterHalf,
      satSub, trimFrames, trimDeltas])

/-- Counterexample to **C1** as stated: with monitors at 60 Hz and 120 Hz
(60000 and 120000 millihertz) the code resolves 1/60 s, the period of the
SLOWEST monitor (it takes `.min()` over refresh rates), while the spec's
minimum-period resolver yields 1/120 s. -/
theorem auto_target_not_min_period :
    detect_frametime [60000, 120000] = some (1 / 60) ∧
    detect_frametime_spec [60000, 120000] = some (1 / 120) ∧
    detect_frametime [60000, 120000] ≠ detect_frametime_spec [60000, 120000] := by
  refine ⟨?_, ?_, ?_⟩ <;>
    norm_num [detect_frametime, detect_frametime_spec, iterMin, iterMinQ,
      min_def]

/-- **C1 (amended)**: in `Automatic` mode the resolved target period is the
MAXIMUM refresh period across tracked displays (the period of the slowest
monitor — the code takes the minimum refresh rate); if no display information
is available the query returns `none` and the previous target period is
retained. -/
theorem auto_target_is_slowest_monitor_period (rates : List ℕ) (p : ℚ)
    (hpos : ∀ m ∈ rates, 0 < m) (h : detect_frametime rates = some p) :
    (∃ m ∈ rates, p = 1000 / (m : ℚ)) ∧
    (∀ m ∈ rates, 1000 / (m : ℚ) ≤ p) ∧
    (∀ (rs : List ℕ) (lim : ℚ), detect_frametime rs = none →
      get_display_refresh_rate Limiter.auto rs lim = lim) ∧
    detect_frametime [] = none := by
  unfold detect_frametime at h
  cases hr : iterMin rates with
  | none => rw [hr] at h; exact Option.noConfusion h
  | some m0 =>
      rw [hr] at h
      injection h with h
      have hm0 : m0 ∈ rates := iterMin_mem hr
      have hp : p = 1000 / (m0 : ℚ) := by
        rw [← h, one_div_div]
      refine ⟨⟨m0, hm0, hp⟩, ?_, ?_, rfl⟩
      · intro m hm
        have h1 : m0 ≤ m := iterMin_le hr m hm
        have h2 : (0 : ℚ) < (m0 : ℚ) := by exact_mod_cast hpos m0 hm0
        rw [hp]
        exact div_le_div_of_nonneg_left (by norm_num) h2 (by exact_mod_cast h1)
      · intro rs lim hnone
        simp [get_display_refresh_rate, hnone]

/-- Witness for the amended C1: with the 60 Hz / 120 Hz pair the resolved
period 1/60 s dominates both monitors' periods. -/
theorem auto_target_is_slowest_monitor_period_witness :
    1000 / ((60000 : ℕ) : ℚ) ≤ (1 / 60 : ℚ) ∧
    1000 / ((120000 : ℕ) : ℚ) ≤ (1 / 60 : ℚ) := by
  have h := auto_target_is_slowest_monitor_period [60000, 120000] (1 / 60)
    (by norm_num) (by norm_num [detect_frametime, iterMin, min_def])
  exact ⟨h.2.1 60000 (by norm_num), h.2.1 120000 (by norm_num)⟩

/-- The state `statsW` after `framerate_limiter` runs with target 0,
present duration 0 and elapsed times 1. -/
def statsAfterZero : FramePaceStats :=
  { last_frame_present_time := 0, last_app_time := 1, frametime_record := [1],
    target_delta_record := [0], target_delta_sum := 0,
    last_sleep_adjustment := 0,
    max_frame_records := 20, pid_kp := 1, pid_ki := 1 / 10, pid_kd := 0 }

/-- Counterexample to **C6** as stated: with a zero target period the
iteration is NOT skipped entirely — no sleep occurs, but the stats ARE
updated (the frametime record grows from `[]` to `[1]`). -/
theorem zero_target_still_updates_stats :
    (framerate_limiter 0 0 1 1 statsW).map
        (fun o => (o.stats.frametime_record, o.sleep_duration))
      = some ([1], 0) ∧
    statsW.frametime_record ≠ [1] := by
  constructor
  · norm_num [framerate_limiter, FramePaceStats.add_frame_stats,
      FramePaceStats.get_requested_sleep_duration, statsW, satSub, rclamp,
      trimFrames, trimDeltas, FramePaceStats.get_last_target_delta,
      FramePaceStats.get_target_delta_sum,
      FramePaceStats.get_last_target_delta_diff]
  · norm_num [statsW]

/-- **C6 (amended)**: when the mirrored target period is zero, the computed
sleep duration is 0 (so no sleep happens), but the iteration still performs
the stats update: the resulting stats are exactly `add_frame_stats` applied
to the frame's measurements. -/
theorem zero_target_no_sleep_but_stats_updated (present e1 e2 : ℚ)
    (s : FramePaceStats) (out : LimiterOutput)
    (h : framerate_limiter 0 present e1 e2 s = some out) :
    out.sleep_duration = 0 ∧
    s.add_frame_stats 0 present (satSub e1 present)
      (s.get_requested_sleep_duration 0 (satSub e1 present)).2 e2
      = some out.stats := by
  simp only [framerate_limiter] at h
  cases hadd : s.add_frame_stats 0 present (satSub e1 present)
      (s.get_requested_sleep_duration 0 (satSub e1 present)).2 e2 with
  | none => rw [hadd] at h; exact Option.noConfusion h
  | some st =>
      rw [hadd] at h
      have hout : out =
          ⟨st, (s.get_requested_sleep_duration 0 (satSub e1 present)).1, []⟩ :=
        (Option.some.inj h).symm
      subst hout
      refine ⟨?_, rfl⟩
      show rclamp (satSub 0 (satSub e1 present)
        - (s.get_requested_sleep_duration 0 (satSub e1 present)).2) 0 0 = 0
      exact rclamp_zero_zero _

/-- Witness for the amended C6 at the concrete zero-target iteration. -/
theorem zero_target_no_sleep_but_stats_updated_witness :
    (⟨statsAfterZero, 0, []⟩ : LimiterOutput).sleep_duration = 0 ∧
    statsW.add_frame_stats 0 0 (satSub 1 0)
      (statsW.get_requested_sleep_duration 0 (satSub 1 0)).2 1
      = some (⟨statsAfterZero, 0, []⟩ : LimiterOutput).stats :=
  zero_target_no_sleep_but_stats_updated 0 1 1 statsW ⟨statsAfterZero, 0, []⟩
    (by norm_num [framerate_limiter, FramePaceStats.add_frame_stats,
      FramePaceStats.get_requested_sleep_duration, statsW, statsAfterZero,
      satSub, rclamp, trimFrames, trimDeltas,
      FramePaceStats.get_last_target_delta,
      FramePaceStats.get_target_delta_sum,
      FramePaceStats.get_last_target_delta_diff])

/-- A stats state holding exactly one recorded deviation sample (value 1). -/
def statsOneDelta : FramePaceStats :=
  { statsW with target_delta_record := [1] }

/-- Counterexample to **C7** as stated: with exactly one recorded deviation
sample (value 1) the accessor returns `-1`, not `0`. -/
theorem last_delta_diff_single_not_zero :
    statsOneDelta.target_delta_record.length = 1 ∧
    statsOneDelta.get_last_target_delta_diff = -1 ∧ ((-1 : ℚ) ≠ 0) := by
  refine ⟨?_, ?_, ?_⟩ <;>
    norm_num [FramePaceStats.get_last_target_delta_diff, statsOneDelta, statsW]

/-- **C7 (amended)**: the accessor returns 0 on an empty history and
second-most-recent minus most-recent on histories of length ≥ 2, but on a
history with exactly one sample it returns `0 - sample` (the negation of the
sole sample), not 0. -/
theorem last_delta_diff_by_cases (s : FramePaceStats) :
    (s.target_delta_record = [] → s.get_last_target_delta_diff = 0) ∧
    (∀ x : ℚ, s.target_delta_record = [x] →
      s.get_last_target_delta_diff = 0 - x) ∧
    (∀ (l : List ℚ) (x y : ℚ), s.target_delta_record = l ++ [x, y] →
      s.get_last_target_delta_diff = x - y) := by
  refine ⟨?_, ?_, ?_⟩
  · intro h
    simp [FramePaceStats.get_last_target_delta_diff, h]
  · intro x h
    simp [FramePaceStats.get_last_target_delta_diff, h]
  · intro l x y h
    unfold FramePaceStats.get_last_target_delta_diff
    rw [h]
    have hlen : (l ++ [x, y]).length = l.length + 2 := by simp
    rw [hlen]
    rw [if_neg (by omega), if_neg (by omega)]
    have hx : (l ++ [x, y]).getD (l.length + 2 - 2) 0 = x := by
      simp [List.getD, List.getElem?_append_right, List.getElem_append_right]
    have hy : ((l ++ [x, y]).getLast?).getD 0 = y := by simp
    rw [hx, hy]

/-- Witness for the amended C7: one sample of value 1 gives `0 - 1`. -/
theorem last_delta_diff_by_cases_witness :
    statsOneDelta.get_last_target_delta_diff = 0 - 1 :=
  (last_delta_diff_by_cases statsOneDelta).2.1 1 rfl

/-- Counterexample to **C8** as stated: the stats constructor does NOT return
normally on every input — with `max_frame_records = 0` it panics (modelled as
`none`). -/
theorem new_zero_capacity_panics :
    FramePaceStats.new 0 1 (1 / 10) 0 = none := by
  norm_num [FramePaceStats.new]

/-- **C8 (amended)**: the panic paths of the pacing core are exactly these
two: the constructor panics iff the requested capacity is zero, and the stats
recorder panics iff the computed adjusted sleep time
`total - app - lost_frame_time` is negative (an internal-bug assertion); on
all other inputs both return normally. -/
theorem panic_paths_characterized (m : ℕ) (kp ki kd : ℚ) (s : FramePaceStats)
    (tgt pres app adj tot : ℚ) :
    (FramePaceStats.new m kp ki kd = none ↔ m = 0) ∧
    (s.add_frame_stats tgt pres app adj tot = none ↔
      tot - app - (if tgt ≤ pres then 0 else pres) < 0) := by
  constructor
  · unfold FramePaceStats.new
    split_ifs with h <;> simp [h]
  · simp only [FramePaceStats.add_frame_stats]
    set L : ℚ := if tgt ≤ pres then (0 : ℚ) else pres with hL
    split_ifs with h <;> simp [h]

/-- Counterexample to **C9** as stated: a frame that overruns a 10 ms target
by 10 ms (far above the claimed ~100 µs threshold) with the limiter enabled
invokes no warning hook — the iteration emits no warnings at all. -/
theorem frame_drop_emits_no_warning :
    (framerate_limiter (1 / 100) 0 0 (2 / 100) statsW).map LimiterOutput.warnings
      = some [] ∧
    (2 / 100 : ℚ) - 1 / 100 > 1 / 10000 := by
  constructor
  · norm_num [framerate_limiter, FramePaceStats.add_frame_stats,
      FramePaceStats.get_requested_sleep_duration, statsW, satSub, rclamp,
      trimFrames, trimDeltas, FramePaceStats.get_last_target_delta,
      FramePaceStats.get_target_delta_sum,
      FramePaceStats.get_last_target_delta_diff]
  · norm_num

/-- **C9 (amended)**: the pacing iteration never invokes any warning hook —
the warning-event output of `framerate_limiter` is empty for every input,
including frames that overrun the target. -/
theorem limiter_never_warns (limit present e1 e2 : ℚ) (s : FramePaceStats) :
    ((framerate_limiter limit present e1 e2 s).map LimiterOutput.warnings).getD []
      = [] := by
  simp only [framerate_limiter]
  cases s.add_frame_stats limit present (satSub e1 present)
      (s.get_requested_sleep_duration limit (satSub e1 present)).2 e2 <;> rfl

/-- **C10**: `get_avg_frame_time` divides the sum of recorded frame times by
the fixed capacity `max_frame_records`, not by the number of samples; it is 0
on an empty history, and whenever the history holds fewer samples than the
capacity with at least one nonzero (hence positive) sample, it is strictly
below the true mean of the recorded samples. -/
theorem avg_divides_by_capacity (s : FramePaceStats)
    (hpos : ∀ x ∈ s.frametime_record, 0 ≤ x) :
    s.get_avg_frame_time =
      (if s.max_frame_records = 0 then 0
        else s.frametime_record.sum / (s.max_frame_records : ℚ)) ∧
    (s.frametime_record = [] → s.get_avg_frame_time = 0) ∧
    (s.frametime_record.length < s.max_frame_records →
      (∃ x ∈ s.frametime_record, x ≠ 0) →
      s.get_avg_frame_time <
        s.frametime_record.sum / (s.frametime_record.length : ℚ)) := by
  refine ⟨rfl, ?_, ?_⟩
  · intro h
    simp [FramePaceStats.get_avg_frame_time, h]
  · intro hlen hex
    obtain ⟨x, hx, hxne⟩ := hex
    have hx0 : 0 < x := lt_of_le_of_ne (hpos x hx) (Ne.symm hxne)
    have hsum : 0 < s.frametime_record.sum :=
      lt_of_lt_of_le hx0 (List.single_le_sum hpos x hx)
    have hlpos : 0 < s.frametime_record.length :=
      List.length_pos.mpr (List.ne_nil_of_mem hx)
    have hm0 : s.max_frame_records ≠ 0 := by omega
    unfold FramePaceStats.get_avg_frame_time
    dsimp only
    rw [if_neg hm0]
    exact div_lt_div_of_pos_left hsum (by exact_mod_cast hlpos)
      (by exact_mod_cast hlen)

/-- A stats state holding exactly one recorded frame time (value 1). -/
def statsOneFrame : FramePaceStats :=
  { statsW with frametime_record := [1] }

/-- Witness for C10: one recorded frame of 1 s gives average 1/20 s, strictly
below the true mean 1 s. -/
theorem avg_divides_by_capacity_witness :
    statsOneFrame.get_avg_frame_time <
      statsOneFrame.frametime_record.sum /
        (statsOneFrame.frametime_record.length : ℚ) :=
  (avg_divides_by_capacity statsOneFrame
      (by norm_num [statsOneFrame, statsW])).2.2
    (by norm_num [statsOneFrame, statsW])
    ⟨1, by norm_num [statsOneFrame, statsW], by norm_num⟩

end Framepace
